import Mathlib

/-!
Verification of the NYC congestion-audit pipeline (ingest.py, pipeline.py)
against its specification.

Modelling conventions.
Timestamps are microseconds since the Unix epoch (the default physical
representation of a polars Datetime column), held as Int.  Calendar dates are
days since the epoch (the physical representation of a polars Date column),
held as Int.  Monetary and distance columns are Float64 in the source; we
model their stored values as exact rationals, and the one computed float
column (speed_mph) as a rational together with the IEEE-754 special values
that the computation can produce (plus/minus infinity and NaN from division
by zero).  Division of two finite floats and comparison of a float with a
finite constant are modelled exactly; this is faithful at every input used
in the theorems below, where the operands are exactly representable.
-/

/-- Microseconds in one minute. -/
def USEC_PER_MIN : Int := 60000000

/-- Microseconds in one hour. -/
def USEC_PER_HOUR : Int := 3600000000

/-- Microseconds in one day. -/
def USEC_PER_DAY : Int := 86400000000

/-- Days from 1970-01-01 to 2025-01-01 (55 years, 14 of them leap). -/
def epochDay_2025_01_01 : Int := 20089

/-- Days from 1970-01-01 to 2025-12-31 (2025 has 365 days). -/
def epochDay_2025_12_31 : Int := 20453

/-- Model of an IEEE-754 double as produced by the pipeline: either a finite
value (held exactly as a rational) or one of the special values that the
speed computation can produce. -/
inductive FVal where
  | nan : FVal
  | posInf : FVal
  | negInf : FVal
  | finite (q : ℚ) : FVal
deriving DecidableEq

/-- IEEE-754 division of two finite doubles: division by zero yields NaN for
a zero numerator and a signed infinity otherwise; other results are modelled
as exact rationals. -/
def fdiv64 (a b : ℚ) : FVal :=
  if b = 0 then
    if a = 0 then FVal.nan else if 0 < a then FVal.posInf else FVal.negInf
  else
    FVal.finite (a / b)

/-- IEEE-754 comparison of a double with a finite constant: NaN compares
false, infinities compare by sign. -/
def FVal.gtc : FVal → ℚ → Bool
  | FVal.nan, _ => false
  | FVal.posInf, _ => true
  | FVal.negInf, _ => false
  | FVal.finite q, c => decide (c < q)

/-- Whether a double is finite (neither an infinity nor NaN). -/
def FVal.isFinite : FVal → Bool
  | FVal.finite _ => true
  | _ => false

/-- One source record after column selection, for either vehicle class
(the two classes differ only in the names of the timestamp columns, which
the select renames away).  congestion_surcharge may be null in the source. -/
structure SourceRow where
  pickup_datetime : Int
  dropoff_datetime : Int
  PULocationID : Int
  DOLocationID : Int
  trip_distance : ℚ
  fare_amount : ℚ
  total_amount : ℚ
  congestion_surcharge : Option ℚ
  VendorID : Int
deriving DecidableEq

/-- A unified row, as returned by ingest_and_unify: renamed columns, with
congestion_surcharge null-coalesced to 0.0. -/
structure TripRecord where
  pickup_time : Int
  dropoff_time : Int
  pickup_loc : Int
  dropoff_loc : Int
  trip_distance : ℚ
  fare : ℚ
  total_amount : ℚ
  congestion_surcharge : ℚ
  VendorID : Int
deriving DecidableEq

/-- The select-projection applied to each scanned source row by
ingest_and_unify (identical for the yellow and the green branch once the
class-specific timestamp columns are renamed): rename the columns and
fill_null(0.0) the congestion surcharge. -/
def selectUnified (s : SourceRow) : TripRecord :=
  { pickup_time := s.pickup_datetime
    dropoff_time := s.dropoff_datetime
    pickup_loc := s.PULocationID
    dropoff_loc := s.DOLocationID
    trip_distance := s.trip_distance
    fare := s.fare_amount
    total_amount := s.total_amount
    congestion_surcharge := s.congestion_surcharge.getD 0
    VendorID := s.VendorID }

/-- Model of pl.scan_parquet on a list of files (each file a list of rows):
polars raises a ComputeError (expected at least 1 source) when the path list
is empty, and otherwise scans the files in order. -/
def scan_parquet (files : List (List SourceRow)) : Except String (List SourceRow) :=
  if files.isEmpty then Except.error "expected at least 1 source"
  else Except.ok files.flatten

/-- ingest.py ingest_and_unify: scan the yellow files, scan the green files,
project each onto the unified schema, and concatenate yellow before green. -/
def ingest_and_unify (yellow_files green_files : List (List SourceRow)) :
    Except String (List TripRecord) := do
  let y ← scan_parquet yellow_files
  let g ← scan_parquet green_files
  Except.ok (y.map selectUnified ++ g.map selectUnified)

/-- A row after the two with_columns feature-derivation steps of
run_pipeline: all unified columns plus duration_min, date, hour, weekday and
speed_mph. -/
structure DerivedRow where
  pickup_time : Int
  dropoff_time : Int
  pickup_loc : Int
  dropoff_loc : Int
  trip_distance : ℚ
  fare : ℚ
  total_amount : ℚ
  congestion_surcharge : ℚ
  VendorID : Int
  duration_min : Int
  date : Int
  hour : Int
  weekday : Int
  speed_mph : FVal
deriving DecidableEq

/-- The feature derivation of run_pipeline (the two with_columns steps):
duration_min is dt.total_minutes() of the timestamp difference, which is the
microsecond difference integer-divided by 60000000 with truncation toward
zero; date, hour and weekday come from pickup_time; speed_mph is the float
division trip_distance / (duration_min / 60), where duration_min / 60 is
itself float division of finite values. -/
def derive_features (r : TripRecord) : DerivedRow :=
  { pickup_time := r.pickup_time
    dropoff_time := r.dropoff_time
    pickup_loc := r.pickup_loc
    dropoff_loc := r.dropoff_loc
    trip_distance := r.trip_distance
    fare := r.fare
    total_amount := r.total_amount
    congestion_surcharge := r.congestion_surcharge
    VendorID := r.VendorID
    duration_min := (r.dropoff_time - r.pickup_time).tdiv USEC_PER_MIN
    date := r.pickup_time / USEC_PER_DAY
    hour := (r.pickup_time % USEC_PER_DAY) / USEC_PER_HOUR
    weekday := (r.pickup_time / USEC_PER_DAY + 3) % 7 + 1
    speed_mph :=
      fdiv64 r.trip_distance
        (((r.dropoff_time - r.pickup_time).tdiv USEC_PER_MIN : ℚ) / 60) }

/-- The feature-derivation stage applied to the whole unified relation:
with_columns is row-aligned and touches every row exactly once. -/
def deriveAll (q : List TripRecord) : List DerivedRow :=
  q.map derive_features

/-- run_pipeline ghost_criteria: speed_mph > 65 OR (duration_min < 1 AND
fare > 20) OR (trip_distance == 0 AND fare > 0). -/
def ghost_criteria (r : DerivedRow) : Bool :=
  r.speed_mph.gtc 65
    || (decide (r.duration_min < 1) && decide ((20 : ℚ) < r.fare))
    || (decide (r.trip_distance = 0) && decide ((0 : ℚ) < r.fare))

/-- The ghost partition: q.filter(ghost_criteria). -/
def ghost_rows (q : List DerivedRow) : List DerivedRow :=
  q.filter ghost_criteria

/-- The clean partition: q.filter(~ghost_criteria). -/
def q_clean (q : List DerivedRow) : List DerivedRow :=
  q.filter (fun r => !ghost_criteria r)

/-- pipeline.py CONGESTION_ZONES: the Manhattan zone identifiers south of
60th Street. -/
def CONGESTION_ZONES : List Int :=
  [12, 13, 43, 45, 48, 50, 68, 79, 87, 88, 90, 100, 107, 113, 114, 116, 120,
   125, 137, 140, 141, 142, 143, 144, 148, 151, 158, 161, 162, 163, 164, 166,
   170, 186, 209, 211, 224, 229, 230, 231, 232, 233, 234, 236, 237, 238, 239,
   243, 244, 246, 249, 261, 262, 263]

/-- The leakage filter of run_pipeline: pickup outside the congestion zones
and dropoff inside them. -/
def leakFilter (r : DerivedRow) : Bool :=
  !(decide (r.pickup_loc ∈ CONGESTION_ZONES))
    && decide (r.dropoff_loc ∈ CONGESTION_ZONES)

/-- One row of the leakage table. -/
structure LeakRow where
  pickup_loc : Int
  total_trips : Nat
  missing_surcharge_count : Nat
deriving DecidableEq

/-- Fuel-indexed helper for uniqueKeys; the fuel is an upper bound on the
list length, so the recursion is structural and computable by the kernel. -/
def uniqueKeysAux {β : Type} [DecidableEq β] : Nat → List β → List β
  | 0, _ => []
  | _, [] => []
  | n + 1, k :: ks => k :: uniqueKeysAux n (ks.filter (fun x => decide (x ≠ k)))

/-- First-occurrence list of the distinct keys of a list, modelling the set
of group_by keys. -/
def uniqueKeys {β : Type} [DecidableEq β] (l : List β) : List β :=
  uniqueKeysAux l.length l

/-- The descending order on leakage rows used by the sort: by
missing_surcharge_count, largest first. -/
def leakGE (a b : LeakRow) : Prop :=
  b.missing_surcharge_count ≤ a.missing_surcharge_count

instance : DecidableRel leakGE := fun a b =>
  inferInstanceAs (Decidable (b.missing_surcharge_count ≤ a.missing_surcharge_count))

instance : IsTotal LeakRow leakGE :=
  ⟨fun a b => (le_total b.missing_surcharge_count a.missing_surcharge_count)⟩

instance : IsTrans LeakRow leakGE :=
  ⟨fun _ _ _ h h2 => le_trans h2 h⟩

/-- run_pipeline leakage_agg applied to the clean relation: filter to trips
entering the zone from outside, group by pickup_loc, count the rows and the
rows whose congestion_surcharge equals 0 exactly, sort by the missing count
descending, keep the top 10. -/
def leakage_agg (clean : List DerivedRow) : List LeakRow :=
  let flt := clean.filter leakFilter
  let agg := (uniqueKeys (flt.map (fun r => r.pickup_loc))).map (fun k =>
    { pickup_loc := k
      total_trips := (flt.filter (fun r => decide (r.pickup_loc = k))).length
      missing_surcharge_count :=
        (flt.filter (fun r => decide (r.pickup_loc = k))).countP
          (fun r => decide (r.congestion_surcharge = 0)) : LeakRow })
  (List.insertionSort leakGE agg).take 10

/-- The rows feeding the velocity heatmap means: clean rows whose pickup is
inside the congestion zones (run_pipeline velocity_agg filter). -/
def velocityInput (clean : List DerivedRow) : List DerivedRow :=
  clean.filter (fun r => decide (r.pickup_loc ∈ CONGESTION_ZONES))

/-- One row of the daily-counts aggregate. -/
structure TripCountRow where
  date : Int
  trip_count : Nat
deriving DecidableEq

/-- run_pipeline daily_counts: group the clean rows by date and count them. -/
def daily_counts (clean : List DerivedRow) : List TripCountRow :=
  (uniqueKeys (clean.map (fun r => r.date))).map (fun d =>
    { date := d
      trip_count := (clean.filter (fun r => decide (r.date = d))).length })

/-- One row of the weather frame built by fetch_weather. -/
structure WeatherRow where
  date : Int
  precipitation_mm : ℚ
deriving DecidableEq

/-- The date column built by fetch_weather: the eager datetime_range from
2025-01-01 to 2025-12-31 inclusive with a one-day step, cast to Date; 365
consecutive day values. -/
def dates2025 : List Int :=
  (List.range 365).map (fun n : Nat => epochDay_2025_01_01 + (n : Int))

/-- The weather frame paired column-wise with the precipitation values
returned by the archive API. -/
def weatherRows (precip : List ℚ) : List WeatherRow :=
  List.zipWith (fun d p => { date := d, precipitation_mm := p : WeatherRow })
    dates2025 precip

/-- pipeline.py fetch_weather, abstracted over the externally supplied
precipitation series: the DataFrame constructor requires the two columns to
have equal length (365), and the date column is always the fixed 2025 range. -/
def fetch_weather (precip : List ℚ) : Except String (List WeatherRow) :=
  if precip.length = 365 then Except.ok (weatherRows precip)
  else Except.error "ShapeError: could not create a new DataFrame"

/-- One row of the weather-elasticity output. -/
structure ElasticityRow where
  date : Int
  precipitation_mm : ℚ
  trip_count : Nat
deriving DecidableEq

/-- weather_df.join(trips_df, on date, how inner): every pairing of a
weather row with a trips row carrying the same date. -/
def innerJoin (weather : List WeatherRow) (trips : List TripCountRow) :
    List ElasticityRow :=
  weather.flatMap (fun w =>
    (trips.filter (fun t => decide (t.date = w.date))).map (fun t =>
      { date := w.date
        precipitation_mm := w.precipitation_mm
        trip_count := t.trip_count }))

/-! ## Basic facts about the grouping keys -/

lemma mem_uniqueKeysAux {β : Type} [DecidableEq β] :
    ∀ (n : Nat) (l : List β), l.length ≤ n → ∀ a : β, (a ∈ uniqueKeysAux n l ↔ a ∈ l) := by
  intro n
  induction n with
  | zero =>
    intro l hl a
    cases l with
    | nil => simp [uniqueKeysAux]
    | cons k ks => simp at hl
  | succ n ih =>
    intro l hl a
    cases l with
    | nil => simp [uniqueKeysAux]
    | cons k ks =>
      have hlen : (ks.filter (fun x => decide (x ≠ k))).length ≤ n := by
        have h1 := List.length_filter_le (fun x => decide (x ≠ k)) ks
        have h2 : ks.length ≤ n := by simpa [Nat.succ_le_succ_iff] using hl
        omega
      have hstep : uniqueKeysAux (n + 1) (k :: ks)
          = k :: uniqueKeysAux n (ks.filter (fun x => decide (x ≠ k))) := rfl
      by_cases hak : a = k
      · subst hak
        simp [hstep]
      · rw [hstep, List.mem_cons, ih _ hlen a, List.mem_filter]
        simp [hak]

lemma nodup_uniqueKeysAux {β : Type} [DecidableEq β] :
    ∀ (n : Nat) (l : List β), l.length ≤ n → (uniqueKeysAux n l).Nodup := by
  intro n
  induction n with
  | zero =>
    intro l hl
    cases l with
    | nil => simp [uniqueKeysAux]
    | cons k ks => simp at hl
  | succ n ih =>
    intro l hl
    cases l with
    | nil => simp [uniqueKeysAux]
    | cons k ks =>
      have hlen : (ks.filter (fun x => decide (x ≠ k))).length ≤ n := by
        have h1 := List.length_filter_le (fun x => decide (x ≠ k)) ks
        have h2 : ks.length ≤ n := by simpa [Nat.succ_le_succ_iff] using hl
        omega
      refine List.Nodup.cons ?_ (ih _ hlen)
      intro hk
      have := (mem_uniqueKeysAux n _ hlen k).mp hk
      simp [List.mem_filter] at this

lemma mem_uniqueKeys {β : Type} [DecidableEq β] (l : List β) (a : β) :
    a ∈ uniqueKeys l ↔ a ∈ l :=
  mem_uniqueKeysAux l.length l le_rfl a

lemma nodup_uniqueKeys {β : Type} [DecidableEq β] (l : List β) :
    (uniqueKeys l).Nodup :=
  nodup_uniqueKeysAux l.length l le_rfl

/-! ## C1: the quality classifier partitions the derived relation -/

/-- C1: for every derived relation, the ghost and clean streams partition
the rows: each row value occurs in the two streams exactly as often as in
the input, a row is in the ghost stream iff it occurs in the input and
satisfies the ghost predicate, a row is in the clean stream iff it occurs in
the input and fails the ghost predicate, and no row is in both streams. -/
theorem ghost_clean_partition (q : List DerivedRow) (r : DerivedRow) :
    q.count r = (ghost_rows q).count r + (q_clean q).count r
      ∧ (r ∈ ghost_rows q ↔ (r ∈ q ∧ ghost_criteria r = true))
      ∧ (r ∈ q_clean q ↔ (r ∈ q ∧ ghost_criteria r = false))
      ∧ ¬(r ∈ ghost_rows q ∧ r ∈ q_clean q) := by
  have hmg : r ∈ ghost_rows q ↔ (r ∈ q ∧ ghost_criteria r = true) := by
    simp [ghost_rows, List.mem_filter]
  have hmc : r ∈ q_clean q ↔ (r ∈ q ∧ ghost_criteria r = false) := by
    simp [q_clean, List.mem_filter]
  refine ⟨?_, hmg, hmc, ?_⟩
  · by_cases hg : ghost_criteria r = true
    · have h1 : (ghost_rows q).count r = q.count r :=
        List.count_filter (p := ghost_criteria) hg
      have h2 : (q_clean q).count r = 0 := by
        refine List.count_eq_zero.2 ?_
        intro hmem
        exact absurd ((hmc.1 hmem).2) (by simp [hg])
      omega
    · have hg2 : ghost_criteria r = false := by
        cases h : ghost_criteria r
        · rfl
        · exact absurd h hg
      have h1 : (q_clean q).count r = q.count r := by
        refine List.count_filter (p := fun x => !ghost_criteria x) ?_
        simp [hg2]
      have h2 : (ghost_rows q).count r = 0 := by
        refine List.count_eq_zero.2 ?_
        intro hmem
        exact absurd ((hmg.1 hmem).2) (by simp [hg2])
      omega
  · rintro ⟨h1, h2⟩
    have e1 := (hmg.1 h1).2
    have e2 := (hmc.1 h2).2
    rw [e1] at e2
    simp at e2

/-- A ghost row used in concrete instances: implausible speed. -/
def ghostRow0 : DerivedRow :=
  { pickup_time := 0, dropoff_time := 600000000, pickup_loc := 7,
    dropoff_loc := 161, trip_distance := 12, fare := 30, total_amount := 35,
    congestion_surcharge := 0, VendorID := 1, duration_min := 10,
    date := 0, hour := 0, weekday := 4, speed_mph := FVal.finite 72 }

/-- A clean row used in concrete instances: ordinary trip. -/
def cleanRow0 : DerivedRow :=
  { pickup_time := 0, dropoff_time := 600000000, pickup_loc := 7,
    dropoff_loc := 161, trip_distance := 3, fare := 10, total_amount := 12,
    congestion_surcharge := 0, VendorID := 2, duration_min := 10,
    date := 0, hour := 0, weekday := 4, speed_mph := FVal.finite 18 }

/-- Witness for C1 at a concrete two-row relation. -/
theorem ghost_clean_partition_witness :
    [ghostRow0, cleanRow0].count ghostRow0
        = (ghost_rows [ghostRow0, cleanRow0]).count ghostRow0
            + (q_clean [ghostRow0, cleanRow0]).count ghostRow0
      ∧ (ghostRow0 ∈ ghost_rows [ghostRow0, cleanRow0]
          ↔ (ghostRow0 ∈ [ghostRow0, cleanRow0] ∧ ghost_criteria ghostRow0 = true))
      ∧ (ghostRow0 ∈ q_clean [ghostRow0, cleanRow0]
          ↔ (ghostRow0 ∈ [ghostRow0, cleanRow0] ∧ ghost_criteria ghostRow0 = false))
      ∧ ¬(ghostRow0 ∈ ghost_rows [ghostRow0, cleanRow0]
            ∧ ghostRow0 ∈ q_clean [ghostRow0, cleanRow0]) :=
  ghost_clean_partition [ghostRow0, cleanRow0] ghostRow0

/-! ## C2: duration_min versus the exact timestamp difference in minutes -/

/-- The exact timestamp difference expressed in minutes, the quantity the
spec asserts duration_min to equal (it may be a non-integer rational). -/
def spec_exact_minutes (r : TripRecord) : ℚ :=
  ((r.dropoff_time - r.pickup_time : ℤ) : ℚ) / (USEC_PER_MIN : ℚ)

lemma abs_cast_int (m : ℤ) : |(m:ℚ)| = (m.natAbs : ℚ) := by
  push_cast [Int.cast_natAbs]
  simp

lemma tdiv_rat_abs (d : ℤ) :
    |((d.tdiv 60000000 : ℤ) : ℚ)| ≤ |(d:ℚ)/60000000|
      ∧ |(d:ℚ)/60000000| < |((d.tdiv 60000000 : ℤ) : ℚ)| + 1 := by
  have hU : (0:ℚ) < 60000000 := by norm_num
  have habs : |(d:ℚ)/60000000| = (d.natAbs : ℚ) / 60000000 := by
    rw [abs_div, abs_cast_int]
    norm_num
  have hm : (d.tdiv 60000000).natAbs = d.natAbs / 60000000 :=
    Int.natAbs_tdiv d 60000000
  rw [habs, abs_cast_int, hm]
  constructor
  · rw [le_div_iff₀ hU]
    exact_mod_cast Nat.div_mul_le_self d.natAbs 60000000
  · rw [div_lt_iff₀ hU]
    have : d.natAbs < (d.natAbs / 60000000 + 1) * 60000000 := by omega
    exact_mod_cast this

lemma tdiv_rat_sign (d : ℤ) :
    (0 ≤ d → ((d.tdiv 60000000 : ℤ) : ℚ) ≤ (d:ℚ)/60000000)
      ∧ (d ≤ 0 → (d:ℚ)/60000000 ≤ ((d.tdiv 60000000 : ℤ) : ℚ)) := by
  have habs := tdiv_rat_abs d
  constructor
  · intro hd
    have h1 : (0:ℤ) ≤ d.tdiv 60000000 := Int.tdiv_nonneg hd (by norm_num)
    have h2 : (0:ℚ) ≤ ((d.tdiv 60000000 : ℤ) : ℚ) := by exact_mod_cast h1
    have h3 : (0:ℚ) ≤ (d:ℚ)/60000000 := by
      apply div_nonneg _ (by norm_num)
      exact_mod_cast hd
    calc ((d.tdiv 60000000 : ℤ) : ℚ)
        = |((d.tdiv 60000000 : ℤ) : ℚ)| := (abs_of_nonneg h2).symm
      _ ≤ |(d:ℚ)/60000000| := habs.1
      _ = (d:ℚ)/60000000 := abs_of_nonneg h3
  · intro hd
    have h1 : (0:ℤ) ≤ (-d).tdiv 60000000 := Int.tdiv_nonneg (by omega) (by norm_num)
    rw [Int.neg_tdiv] at h1
    have h2 : ((d.tdiv 60000000 : ℤ) : ℚ) ≤ 0 := by
      have : d.tdiv 60000000 ≤ 0 := by omega
      exact_mod_cast this
    have h3 : (d:ℚ)/60000000 ≤ 0 := by
      apply div_nonpos_of_nonpos_of_nonneg _ (by norm_num)
      exact_mod_cast hd
    have := habs.1
    rw [abs_of_nonpos h2, abs_of_nonpos h3] at this
    linarith

lemma tdiv_rat_exact (d : ℤ) :
    ((d.tdiv 60000000 : ℤ) : ℚ) = (d:ℚ)/60000000 ↔ (60000000:ℤ) ∣ d := by
  constructor
  · intro h
    have h2 : ((d.tdiv 60000000 * 60000000 : ℤ) : ℚ) = (d : ℚ) := by
      push_cast
      rw [h]
      ring
    have h3 : (d.tdiv 60000000) * 60000000 = d := by exact_mod_cast h2
    exact Dvd.intro_left _ h3
  · rintro ⟨k, rfl⟩
    rw [Int.mul_tdiv_cancel_left _ (by norm_num)]
    push_cast
    field_simp

/-- A trip lasting 90 seconds: its exact duration is 1.5 minutes but the
derived duration_min is the truncation 1. -/
def trip90s : TripRecord :=
  { pickup_time := 0, dropoff_time := 90000000, pickup_loc := 7,
    dropoff_loc := 161, trip_distance := 1, fare := 5, total_amount := 6,
    congestion_surcharge := 0, VendorID := 1 }

/-- C2 counterexample: on a 90-second trip the derived duration_min (1) is
not the exact timestamp difference in minutes (1.5); dt.total_minutes()
truncates, contradicting the claim for non-whole-minute trips. -/
theorem duration_min_not_exact_ce :
    ¬ (((derive_features trip90s).duration_min : ℚ) = spec_exact_minutes trip90s) := by
  have h1 : (derive_features trip90s).duration_min = 1 := by decide
  rw [h1]
  norm_num [spec_exact_minutes, trip90s, USEC_PER_MIN]

/-- C2 (amended): for every unified row, duration_min is the exact
timestamp difference in minutes rounded toward zero to a whole number of
minutes: its magnitude never exceeds the exact value and is within one
minute of it, it equals the exact difference precisely when the microsecond
difference is a whole number of minutes, and the rounding is toward zero in
both sign directions. -/
theorem duration_min_truncation (r : TripRecord) :
    (|((derive_features r).duration_min : ℚ)| ≤ |spec_exact_minutes r|
      ∧ |spec_exact_minutes r| < |((derive_features r).duration_min : ℚ)| + 1)
      ∧ (((derive_features r).duration_min : ℚ) = spec_exact_minutes r
          ↔ USEC_PER_MIN ∣ (r.dropoff_time - r.pickup_time))
      ∧ (0 ≤ r.dropoff_time - r.pickup_time
          → ((derive_features r).duration_min : ℚ) ≤ spec_exact_minutes r)
      ∧ (r.dropoff_time - r.pickup_time ≤ 0
          → spec_exact_minutes r ≤ ((derive_features r).duration_min : ℚ)) := by
  have hd : (derive_features r).duration_min
      = (r.dropoff_time - r.pickup_time).tdiv 60000000 := rfl
  have he : spec_exact_minutes r
      = ((r.dropoff_time - r.pickup_time : ℤ) : ℚ) / 60000000 := by
    norm_num [spec_exact_minutes, USEC_PER_MIN]
  rw [hd, he]
  refine ⟨tdiv_rat_abs _, ?_, (tdiv_rat_sign _).1, (tdiv_rat_sign _).2⟩
  have h := tdiv_rat_exact (r.dropoff_time - r.pickup_time)
  simpa [USEC_PER_MIN] using h

/-- Witness for the amended C2 at the 90-second trip. -/
theorem duration_min_truncation_witness :
    0 ≤ trip90s.dropoff_time - trip90s.pickup_time
      ∧ ((derive_features trip90s).duration_min : ℚ) ≤ spec_exact_minutes trip90s :=
  ⟨by decide, (duration_min_truncation trip90s).2.2.1 (by decide)⟩

/-! ## C3: zero-duration rows, non-finite speeds and the ghost predicate -/

/-- A zero-duration, zero-distance, zero-fare trip picked up inside the
congestion zone: its speed is 0/0 = NaN. -/
def zeroTrip : TripRecord :=
  { pickup_time := 0, dropoff_time := 0, pickup_loc := 43, dropoff_loc := 161,
    trip_distance := 0, fare := 0, total_amount := 0,
    congestion_surcharge := 0, VendorID := 1 }

/-- C3 counterexample: a row with duration_min = 0 that does NOT satisfy the
ghost predicate (NaN compares false against 65, the fare guards fail), so a
clean row with non-finite speed_mph exists and even contributes to the
velocity-mean input. -/
theorem nan_speed_clean_ce :
    (derive_features zeroTrip).duration_min = 0
      ∧ ghost_criteria (derive_features zeroTrip) = false
      ∧ (derive_features zeroTrip).speed_mph = FVal.nan
      ∧ q_clean (deriveAll [zeroTrip]) = [derive_features zeroTrip]
      ∧ derive_features zeroTrip ∈ velocityInput (q_clean (deriveAll [zeroTrip])) := by
  have hs : (derive_features zeroTrip).speed_mph = FVal.nan := by
    norm_num [derive_features, zeroTrip, fdiv64, USEC_PER_MIN, Int.zero_tdiv]
  have hg : ghost_criteria (derive_features zeroTrip) = false := by
    rw [ghost_criteria, hs]
    norm_num [FVal.gtc, derive_features, zeroTrip]
  have hc : q_clean (deriveAll [zeroTrip]) = [derive_features zeroTrip] := by
    simp [q_clean, deriveAll, hg]
  have hz : (derive_features zeroTrip).pickup_loc ∈ CONGESTION_ZONES := by decide
  refine ⟨by decide, hg, hs, hc, ?_⟩
  rw [hc]
  simp [velocityInput, List.mem_filter, hz]

/-- C3 (amended): a row with duration_min = 0 and non-negative distance has
a non-finite speed_mph (infinity or NaN, no crash), and it satisfies the
ghost predicate exactly when its distance is positive (infinite speed) or
its fare is positive (caught by the fare guards); a zero-distance,
non-positive-fare, zero-duration row is classified clean with NaN speed. -/
theorem duration_zero_speed (r : TripRecord)
    (h0 : (derive_features r).duration_min = 0) (hd : 0 ≤ r.trip_distance) :
    (derive_features r).speed_mph.isFinite = false
      ∧ (ghost_criteria (derive_features r) = true
          ↔ (0 < r.trip_distance ∨ 0 < r.fare)) := by
  have hs0 : (derive_features r).speed_mph = fdiv64 r.trip_distance 0 := by
    have h : (derive_features r).speed_mph
        = fdiv64 r.trip_distance
            ((((derive_features r).duration_min : ℤ) : ℚ) / 60) := rfl
    rw [h, h0]
    norm_num
  have hproj_d : (derive_features r).trip_distance = r.trip_distance := rfl
  have hproj_f : (derive_features r).fare = r.fare := rfl
  rcases eq_or_lt_of_le hd with heq | hlt
  · have hnan : (derive_features r).speed_mph = FVal.nan := by
      rw [hs0, fdiv64]
      simp [← heq]
    refine ⟨by rw [hnan]; rfl, ?_⟩
    rw [ghost_criteria, hnan]
    simp only [FVal.gtc, hproj_d, hproj_f, h0, ← heq]
    norm_num
    intro h
    linarith
  · have hpos : (derive_features r).speed_mph = FVal.posInf := by
      rw [hs0, fdiv64]
      simp [ne_of_gt hlt, hlt, (ne_of_gt hlt).symm]
    refine ⟨by rw [hpos]; rfl, ?_⟩
    rw [ghost_criteria, hpos]
    simp only [FVal.gtc, Bool.true_or]
    exact iff_of_true trivial (Or.inl hlt)

/-- A 30-second, zero-distance trip with a 30-dollar fare: zero whole
minutes of duration, positive fare. -/
def halfMinTrip : TripRecord :=
  { pickup_time := 0, dropoff_time := 30000000, pickup_loc := 100,
    dropoff_loc := 7, trip_distance := 0, fare := 30, total_amount := 31,
    congestion_surcharge := 0, VendorID := 2 }

/-- Witness for the amended C3 at a concrete zero-duration trip. -/
theorem duration_zero_speed_witness :
    (derive_features halfMinTrip).speed_mph.isFinite = false
      ∧ (ghost_criteria (derive_features halfMinTrip) = true
          ↔ (0 < halfMinTrip.trip_distance ∨ 0 < halfMinTrip.fare)) :=
  duration_zero_speed halfMinTrip (by decide) (by decide)

/-! ## C8: the feature deriver is a pure row-wise transform -/

/-- C8: feature derivation neither drops nor adds rows, and at every index
the derived row carries every original unified column value unchanged. -/
theorem derive_features_row_preserving (q : List TripRecord) (i : ℕ)
    (h : i < q.length) (h2 : i < (deriveAll q).length) :
    (deriveAll q).length = q.length
      ∧ ((deriveAll q).get ⟨i, h2⟩).pickup_time = (q.get ⟨i, h⟩).pickup_time
      ∧ ((deriveAll q).get ⟨i, h2⟩).dropoff_time = (q.get ⟨i, h⟩).dropoff_time
      ∧ ((deriveAll q).get ⟨i, h2⟩).pickup_loc = (q.get ⟨i, h⟩).pickup_loc
      ∧ ((deriveAll q).get ⟨i, h2⟩).dropoff_loc = (q.get ⟨i, h⟩).dropoff_loc
      ∧ ((deriveAll q).get ⟨i, h2⟩).trip_distance = (q.get ⟨i, h⟩).trip_distance
      ∧ ((deriveAll q).get ⟨i, h2⟩).fare = (q.get ⟨i, h⟩).fare
      ∧ ((deriveAll q).get ⟨i, h2⟩).total_amount = (q.get ⟨i, h⟩).total_amount
      ∧ ((deriveAll q).get ⟨i, h2⟩).congestion_surcharge
          = (q.get ⟨i, h⟩).congestion_surcharge
      ∧ ((deriveAll q).get ⟨i, h2⟩).VendorID = (q.get ⟨i, h⟩).VendorID := by
  have hget : (deriveAll q).get ⟨i, h2⟩ = derive_features (q.get ⟨i, h⟩) := by
    simp [deriveAll, List.get_eq_getElem, List.getElem_map]
  rw [hget]
  exact ⟨by simp [deriveAll], rfl, rfl, rfl, rfl, rfl, rfl, rfl, rfl, rfl⟩

/-- Witness for C8 at a one-row relation. -/
theorem derive_features_row_preserving_witness :
    (deriveAll [trip90s]).length = [trip90s].length
      ∧ ((deriveAll [trip90s]).get ⟨0, by decide⟩).pickup_time
          = ([trip90s].get ⟨0, by decide⟩).pickup_time
      ∧ ((deriveAll [trip90s]).get ⟨0, by decide⟩).dropoff_time
          = ([trip90s].get ⟨0, by decide⟩).dropoff_time
      ∧ ((deriveAll [trip90s]).get ⟨0, by decide⟩).pickup_loc
          = ([trip90s].get ⟨0, by decide⟩).pickup_loc
      ∧ ((deriveAll [trip90s]).get ⟨0, by decide⟩).dropoff_loc
          = ([trip90s].get ⟨0, by decide⟩).dropoff_loc
      ∧ ((deriveAll [trip90s]).get ⟨0, by decide⟩).trip_distance
          = ([trip90s].get ⟨0, by decide⟩).trip_distance
      ∧ ((deriveAll [trip90s]).get ⟨0, by decide⟩).fare
          = ([trip90s].get ⟨0, by decide⟩).fare
      ∧ ((deriveAll [trip90s]).get ⟨0, by decide⟩).total_amount
          = ([trip90s].get ⟨0, by decide⟩).total_amount
      ∧ ((deriveAll [trip90s]).get ⟨0, by decide⟩).congestion_surcharge
          = ([trip90s].get ⟨0, by decide⟩).congestion_surcharge
      ∧ ((deriveAll [trip90s]).get ⟨0, by decide⟩).VendorID
          = ([trip90s].get ⟨0, by decide⟩).VendorID :=
  derive_features_row_preserving [trip90s] 0 (by decide) (by decide)

/-! ## C5: one vehicle class with an empty file set -/

/-- A source row used in the ingestion instances, with a null surcharge. -/
def srcRowNull : SourceRow :=
  { pickup_datetime := 0, dropoff_datetime := 600000000, PULocationID := 7,
    DOLocationID := 161, trip_distance := 3, fare_amount := 10,
    total_amount := 12, congestion_surcharge := none, VendorID := 1 }

/-- A source row used in the ingestion instances, with a paid surcharge. -/
def srcRowPaid : SourceRow :=
  { pickup_datetime := 0, dropoff_datetime := 900000000, PULocationID := 100,
    DOLocationID := 163, trip_distance := 4, fare_amount := 14,
    total_amount := 18, congestion_surcharge := some (9/4), VendorID := 2 }

/-- C5: if either vehicle class contributes an empty file-path set, the
unifier does NOT succeed: pl.scan_parquet raises on an empty source list, so
ingest_and_unify propagates an error instead of yielding the rows of the
other class (the claim asserts it should succeed). -/
theorem ingest_empty_fileset_errors :
    ingest_and_unify [] [[srcRowPaid]]
        = Except.error "expected at least 1 source"
      ∧ ingest_and_unify [[srcRowNull]] []
        = Except.error "expected at least 1 source" :=
  ⟨rfl, rfl⟩

/-! ## C7: null surcharges are coalesced at ingestion -/

/-- C7: a successful unification returns exactly the projections of the
scanned source rows (yellow then green), and the projection replaces a null
congestion_surcharge by 0.0, so every unified row carries a non-null
surcharge value. -/
theorem surcharge_coalesced (yellow green : List (List SourceRow))
    (rows : List TripRecord) (s : SourceRow)
    (h : ingest_and_unify yellow green = Except.ok rows) :
    rows = (yellow.flatten).map selectUnified ++ (green.flatten).map selectUnified
      ∧ (selectUnified s).congestion_surcharge = s.congestion_surcharge.getD 0 := by
  refine ⟨?_, rfl⟩
  by_cases hy : yellow.isEmpty
  · simp [ingest_and_unify, scan_parquet, hy, Bind.bind, Except.bind] at h
  · by_cases hg : green.isEmpty
    · simp [ingest_and_unify, scan_parquet, hy, hg, Bind.bind, Except.bind] at h
    · simp [ingest_and_unify, scan_parquet, hy, hg, Bind.bind, Except.bind] at h
      simpa using h.symm

/-- Witness for C7 at a two-file ingestion with one null surcharge. -/
theorem surcharge_coalesced_witness :
    [selectUnified srcRowNull, selectUnified srcRowPaid]
        = ([[srcRowNull]].flatten).map selectUnified
            ++ ([[srcRowPaid]].flatten).map selectUnified
      ∧ (selectUnified srcRowNull).congestion_surcharge
          = srcRowNull.congestion_surcharge.getD 0 :=
  surcharge_coalesced [[srcRowNull]] [[srcRowPaid]]
    [selectUnified srcRowNull, selectUnified srcRowPaid] srcRowNull rfl

/-! ## C4 and C9: the leakage table -/

/-- Every row of the leakage table is the aggregate of the group of
filtered rows sharing its pickup_loc, for a key that occurs among the
filtered rows. -/
lemma leakage_agg_mem {clean : List DerivedRow} {row : LeakRow}
    (h : row ∈ leakage_agg clean) :
    ∃ k, k ∈ (clean.filter leakFilter).map (fun r => r.pickup_loc)
      ∧ row =
        { pickup_loc := k
          total_trips :=
            ((clean.filter leakFilter).filter
              (fun r => decide (r.pickup_loc = k))).length
          missing_surcharge_count :=
            ((clean.filter leakFilter).filter
              (fun r => decide (r.pickup_loc = k))).countP
                (fun r => decide (r.congestion_surcharge = 0)) } := by
  rw [leakage_agg] at h
  have h1 := (List.take_sublist 10 _).subset h
  have h2 := (List.perm_insertionSort leakGE _).mem_iff.mp h1
  obtain ⟨k, hk, hrow⟩ := List.mem_map.mp h2
  exact ⟨k, (mem_uniqueKeys _ k).mp hk, hrow.symm⟩

/-- C4: every leakage row has its pickup_loc outside the congestion zones;
its two counts tally exactly the clean rows with that pickup_loc that pass
the leakage filter (dropoff inside the zone), the missing count tallying
those with congestion_surcharge exactly 0; the table has at most 10 rows;
and missing_surcharge_count is non-increasing from the first row to the
last. -/
theorem leakage_table_props (clean : List DerivedRow) (row : LeakRow) :
    ((row ∈ leakage_agg clean) →
        row.pickup_loc ∉ CONGESTION_ZONES
          ∧ row.total_trips
              = (clean.filter
                  (fun r => decide (r.pickup_loc = row.pickup_loc)
                      && leakFilter r)).length
          ∧ row.missing_surcharge_count
              = (clean.filter
                  (fun r => decide (r.pickup_loc = row.pickup_loc)
                      && leakFilter r)).countP
                  (fun r => decide (r.congestion_surcharge = 0)))
      ∧ (leakage_agg clean).length ≤ 10
      ∧ List.Sorted leakGE (leakage_agg clean) := by
  refine ⟨?_, ?_, ?_⟩
  · intro h
    obtain ⟨k, hk, hrow⟩ := leakage_agg_mem h
    have hff :
        (clean.filter leakFilter).filter (fun r => decide (r.pickup_loc = k))
          = clean.filter (fun r => decide (r.pickup_loc = k) && leakFilter r) :=
      List.filter_filter _ _
    have hpk : row.pickup_loc = k := by rw [hrow]
    obtain ⟨r0, hr0, hr0k⟩ := List.mem_map.mp hk
    have hr0f : leakFilter r0 = true := (List.mem_filter.mp hr0).2
    have hout : k ∉ CONGESTION_ZONES := by
      rw [leakFilter] at hr0f
      have := (Bool.and_eq_true _ _).mp hr0f
      rw [← hr0k]
      simpa using this.1
    refine ⟨by rw [hpk]; exact hout, ?_, ?_⟩
    · rw [hrow]
      simp only [hpk, hff]
    · rw [hrow]
      simp only [hpk, hff]
  · rw [leakage_agg]
    simp only [List.length_take]
    exact inf_le_left
  · rw [leakage_agg]
    exact List.Pairwise.sublist (List.take_sublist 10 _)
      (List.sorted_insertionSort leakGE _)

/-- A clean row leaking into the zone with an unpaid surcharge. -/
def leakRowA : DerivedRow :=
  { pickup_time := 0, dropoff_time := 600000000, pickup_loc := 7,
    dropoff_loc := 161, trip_distance := 3, fare := 10, total_amount := 12,
    congestion_surcharge := 0, VendorID := 1, duration_min := 10,
    date := 0, hour := 0, weekday := 4, speed_mph := FVal.finite 18 }

/-- A clean row leaking into the zone with a paid surcharge. -/
def leakRowB : DerivedRow :=
  { pickup_time := 0, dropoff_time := 900000000, pickup_loc := 7,
    dropoff_loc := 163, trip_distance := 4, fare := 14, total_amount := 18,
    congestion_surcharge := 2, VendorID := 2, duration_min := 15,
    date := 0, hour := 0, weekday := 4, speed_mph := FVal.finite 16 }

/-- Witness for C4 at a concrete two-row clean relation producing the
leakage row (pickup 7, 2 trips, 1 missing surcharge). -/
theorem leakage_table_props_witness :
    (({ pickup_loc := 7, total_trips := 2, missing_surcharge_count := 1 : LeakRow}).pickup_loc
          ∉ CONGESTION_ZONES
      ∧ ({ pickup_loc := 7, total_trips := 2, missing_surcharge_count := 1 : LeakRow}).total_trips
          = ([leakRowA, leakRowB].filter
              (fun r => decide (r.pickup_loc
                    = ({ pickup_loc := 7, total_trips := 2, missing_surcharge_count := 1 : LeakRow}).pickup_loc)
                  && leakFilter r)).length
      ∧ ({ pickup_loc := 7, total_trips := 2, missing_surcharge_count := 1 : LeakRow}).missing_surcharge_count
          = ([leakRowA, leakRowB].filter
              (fun r => decide (r.pickup_loc
                    = ({ pickup_loc := 7, total_trips := 2, missing_surcharge_count := 1 : LeakRow}).pickup_loc)
                  && leakFilter r)).countP
              (fun r => decide (r.congestion_surcharge = 0)))
      ∧ (leakage_agg [leakRowA, leakRowB]).length ≤ 10
      ∧ List.Sorted leakGE (leakage_agg [leakRowA, leakRowB]) :=
  ⟨(leakage_table_props [leakRowA, leakRowB]
      { pickup_loc := 7, total_trips := 2, missing_surcharge_count := 1 }).1
        (by decide),
    (leakage_table_props [leakRowA, leakRowB]
      { pickup_loc := 7, total_trips := 2, missing_surcharge_count := 1 }).2.1,
    (leakage_table_props [leakRowA, leakRowB]
      { pickup_loc := 7, total_trips := 2, missing_surcharge_count := 1 }).2.2⟩

/-- C9: in every leakage row the missing-surcharge count lies between 0 and
the total trip count of the group, being a sub-count of the same rows. -/
theorem leakage_counts_bounds (clean : List DerivedRow) (row : LeakRow)
    (h : row ∈ leakage_agg clean) :
    0 ≤ row.missing_surcharge_count
      ∧ row.missing_surcharge_count ≤ row.total_trips := by
  obtain ⟨k, hk, hrow⟩ := leakage_agg_mem h
  rw [hrow]
  exact ⟨Nat.zero_le _, List.countP_le_length _⟩

/-- A clean leaking row used for the C9 witness. -/
def leakRowC : DerivedRow :=
  { pickup_time := 0, dropoff_time := 300000000, pickup_loc := 1,
    dropoff_loc := 236, trip_distance := 2, fare := 9, total_amount := 10,
    congestion_surcharge := 0, VendorID := 1, duration_min := 5,
    date := 0, hour := 0, weekday := 4, speed_mph := FVal.finite 24 }

/-- Witness for C9 at a concrete one-row clean relation. -/
theorem leakage_counts_bounds_witness :
    0 ≤ ({ pickup_loc := 1, total_trips := 1, missing_surcharge_count := 1 : LeakRow}).missing_surcharge_count
      ∧ ({ pickup_loc := 1, total_trips := 1, missing_surcharge_count := 1 : LeakRow}).missing_surcharge_count
          ≤ ({ pickup_loc := 1, total_trips := 1, missing_surcharge_count := 1 : LeakRow}).total_trips :=
  leakage_counts_bounds [leakRowC]
    { pickup_loc := 1, total_trips := 1, missing_surcharge_count := 1 }
    (by decide)

/-! ## C6 and C10: the weather-elasticity inner join -/

lemma filter_length_partition {α : Type} (p : α → Bool) (l : List α) :
    (l.filter p).length + (l.filter (fun x => !p x)).length = l.length := by
  induction l with
  | nil => simp
  | cons a l ih =>
    cases hpa : p a <;> simp [List.filter_cons, hpa] <;> omega

/-- The date of every joined row occurs on both sides of the join. -/
lemma innerJoin_mem {weather : List WeatherRow} {trips : List TripCountRow}
    {row : ElasticityRow} (h : row ∈ innerJoin weather trips) :
    row.date ∈ weather.map WeatherRow.date
      ∧ row.date ∈ trips.map TripCountRow.date := by
  rw [innerJoin] at h
  obtain ⟨w, hw, hmem⟩ := List.mem_flatMap.mp h
  obtain ⟨t, ht, hrow⟩ := List.mem_map.mp hmem
  have ht2 := List.mem_filter.mp ht
  have htd : t.date = w.date := by simpa using ht2.2
  have hrd : row.date = w.date := by rw [← hrow]
  constructor
  · rw [hrd]
    exact List.mem_map_of_mem WeatherRow.date hw
  · rw [hrd, ← htd]
    exact List.mem_map_of_mem TripCountRow.date ht2.1

/-- Dropping the trip rows carrying a date that no weather row carries does
not change the join. -/
lemma innerJoin_filter_ne (dd : Int) :
    ∀ (W : List WeatherRow) (trips : List TripCountRow),
      (∀ x ∈ W, x.date ≠ dd) →
      innerJoin W trips
        = innerJoin W (trips.filter (fun t => !decide (t.date = dd))) := by
  intro W
  induction W with
  | nil => intro trips _; rfl
  | cons x X ih =>
    intro trips h
    have hx : x.date ≠ dd := h x (List.mem_cons_self x X)
    have hmatch : trips.filter (fun t => decide (t.date = x.date))
        = (trips.filter (fun t => !decide (t.date = dd))).filter
            (fun t => decide (t.date = x.date)) := by
      rw [List.filter_filter]
      apply List.filter_congr
      intro t ht
      by_cases htx : t.date = x.date
      · simp [htx, hx]
      · simp [htx]
    have htail : innerJoin X trips
        = innerJoin X (trips.filter (fun t => !decide (t.date = dd))) :=
      ih trips (fun y hy => h y (List.mem_cons_of_mem x hy))
    show (trips.filter (fun t => decide (t.date = x.date))).map _
          ++ innerJoin X trips = _
    rw [hmatch, htail]
    rfl

/-- When the weather dates are distinct the join has at most one row per
trips row. -/
lemma innerJoin_length_right :
    ∀ (weather : List WeatherRow) (trips : List TripCountRow),
      (weather.map WeatherRow.date).Nodup →
      (innerJoin weather trips).length ≤ trips.length := by
  intro weather
  induction weather with
  | nil => intro trips _; simp [innerJoin]
  | cons w W ih =>
    intro trips h
    rw [List.map_cons, List.nodup_cons] at h
    obtain ⟨hw, hW⟩ := h
    have hX : ∀ x ∈ W, x.date ≠ w.date := by
      intro x hx hcon
      exact hw (hcon ▸ List.mem_map_of_mem WeatherRow.date hx)
    have hrw : innerJoin (w :: W) trips
        = (trips.filter (fun t => decide (t.date = w.date))).map
            (fun t => { date := w.date, precipitation_mm := w.precipitation_mm,
                        trip_count := t.trip_count : ElasticityRow })
          ++ innerJoin W trips := rfl
    have htail := innerJoin_filter_ne w.date W trips hX
    have hpart := filter_length_partition
      (fun t : TripCountRow => decide (t.date = w.date)) trips
    have hih := ih (trips.filter (fun t => !decide (t.date = w.date))) hW
    rw [hrw, htail]
    simp only [List.length_append, List.length_map]
    omega

/-- When the trip dates are distinct, each weather row matches at most one
trips row. -/
lemma filter_date_len_le_one :
    ∀ (trips : List TripCountRow),
      (trips.map TripCountRow.date).Nodup → ∀ d : Int,
      (trips.filter (fun t => decide (t.date = d))).length ≤ 1 := by
  intro trips
  induction trips with
  | nil => intro _ d; simp
  | cons t ts ih =>
    intro hn d
    rw [List.map_cons, List.nodup_cons] at hn
    obtain ⟨ht, hts⟩ := hn
    by_cases htd : t.date = d
    · have hnil : ts.filter (fun x => decide (x.date = d)) = [] := by
        rw [List.filter_eq_nil_iff]
        intro x hx
        simp only [decide_eq_true_eq]
        intro hxd
        apply ht
        have := List.mem_map_of_mem TripCountRow.date hx
        rwa [hxd, ← htd] at this
      simp [List.filter_cons, htd, hnil]
    · simp only [List.filter_cons, htd, decide_eq_true_eq, if_neg htd]
      exact ih hts d

lemma innerJoin_length_left :
    ∀ (weather : List WeatherRow) (trips : List TripCountRow),
      (trips.map TripCountRow.date).Nodup →
      (innerJoin weather trips).length ≤ weather.length := by
  intro weather
  induction weather with
  | nil => intro trips _; simp [innerJoin]
  | cons w W ih =>
    intro trips hn
    have hrw : innerJoin (w :: W) trips
        = (trips.filter (fun t => decide (t.date = w.date))).map
            (fun t => { date := w.date, precipitation_mm := w.precipitation_mm,
                        trip_count := t.trip_count : ElasticityRow })
          ++ innerJoin W trips := rfl
    have h1 := filter_date_len_le_one trips hn w.date
    have h2 := ih trips hn
    rw [hrw]
    simp only [List.length_append, List.length_map, List.length_cons]
    omega

/-- The daily-counts dates are the distinct clean-row dates. -/
lemma daily_counts_dates (clean : List DerivedRow) :
    (daily_counts clean).map TripCountRow.date
      = uniqueKeys (clean.map (fun r => r.date)) := by
  rw [daily_counts, List.map_map]
  exact List.map_id'' (fun x => rfl) _

lemma zip_dates_sublist :
    ∀ (l1 : List Int) (l2 : List ℚ),
      ((List.zipWith
          (fun d p => { date := d, precipitation_mm := p : WeatherRow })
          l1 l2).map WeatherRow.date).Sublist l1 := by
  intro l1
  induction l1 with
  | nil => intro l2; simp
  | cons d ds ih =>
    intro l2
    cases l2 with
    | nil => simp
    | cons p ps =>
      simp only [List.zipWith_cons_cons, List.map_cons]
      exact List.Sublist.cons₂ d (ih ps)

lemma dates2025_nodup : dates2025.Nodup := by
  rw [dates2025]
  refine List.Nodup.map ?_ (List.nodup_range 365)
  intro a b hab
  simp only at hab
  omega

lemma mem_dates2025 {d : Int} (h : d ∈ dates2025) :
    epochDay_2025_01_01 ≤ d ∧ d ≤ epochDay_2025_12_31 := by
  rw [dates2025] at h
  obtain ⟨i, hi, rfl⟩ := List.mem_map.mp h
  rw [List.mem_range] at hi
  unfold epochDay_2025_01_01 epochDay_2025_12_31
  omega

lemma fetch_weather_ok {precip : List ℚ} {w : List WeatherRow}
    (h : fetch_weather precip = Except.ok w) : w = weatherRows precip := by
  by_cases hp : precip.length = 365
  · simp [fetch_weather, hp] at h
    exact h.symm
  · simp [fetch_weather, hp] at h

/-- C6: the weather-elasticity table is the inner join of the daily counts
and the fetched weather series on the date key: every output date occurs in
both inputs, and the row count is at most the minimum of the number of
days-with-trips and days-with-weather. -/
theorem weather_join_props (precip : List ℚ) (w : List WeatherRow)
    (clean : List DerivedRow) (row : ElasticityRow)
    (hw : fetch_weather precip = Except.ok w) :
    ((row ∈ innerJoin w (daily_counts clean)) →
        row.date ∈ w.map WeatherRow.date
          ∧ row.date ∈ (daily_counts clean).map TripCountRow.date)
      ∧ (innerJoin w (daily_counts clean)).length
          ≤ min (daily_counts clean).length w.length := by
  refine ⟨fun h => innerJoin_mem h, ?_⟩
  have hwdates : (w.map WeatherRow.date).Nodup := by
    rw [fetch_weather_ok hw, weatherRows]
    exact (zip_dates_sublist dates2025 precip).nodup dates2025_nodup
  have htdates : ((daily_counts clean).map TripCountRow.date).Nodup := by
    rw [daily_counts_dates]
    exact nodup_uniqueKeys _
  exact Nat.le_min.mpr
    ⟨innerJoin_length_right w (daily_counts clean) hwdates,
      innerJoin_length_left w (daily_counts clean) htdates⟩

/-- C10: every date in the weather-elasticity output lies inside calendar
year 2025, because the weather side of the join carries exactly the dates
2025-01-01 through 2025-12-31. -/
theorem elasticity_dates_in_2025 (precip : List ℚ) (w : List WeatherRow)
    (clean : List DerivedRow) (row : ElasticityRow)
    (hw : fetch_weather precip = Except.ok w)
    (hr : row ∈ innerJoin w (daily_counts clean)) :
    epochDay_2025_01_01 ≤ row.date ∧ row.date ≤ epochDay_2025_12_31 := by
  have hm := (innerJoin_mem hr).1
  rw [fetch_weather_ok hw, weatherRows] at hm
  exact mem_dates2025 ((zip_dates_sublist dates2025 precip).subset hm)

/-- A year of zero daily precipitation, as a concrete weather input. -/
def precip2025 : List ℚ := List.replicate 365 0

/-- A clean derived row dated 2025-06-01 (epoch day 20240). -/
def juneCleanRow : DerivedRow :=
  { pickup_time := 20240 * 86400000000,
    dropoff_time := 20240 * 86400000000 + 600000000, pickup_loc := 79,
    dropoff_loc := 161, trip_distance := 3, fare := 10, total_amount := 12,
    congestion_surcharge := 1, VendorID := 1, duration_min := 10,
    date := 20240, hour := 0, weekday := 7, speed_mph := FVal.finite 18 }

set_option maxRecDepth 40000

/-- Witness for C6 at a concrete one-day clean relation and the fixed
2025 weather series. -/
theorem weather_join_props_witness :
    (({ date := 20240, precipitation_mm := 0, trip_count := 1 : ElasticityRow}).date
          ∈ (weatherRows precip2025).map WeatherRow.date
      ∧ ({ date := 20240, precipitation_mm := 0, trip_count := 1 : ElasticityRow}).date
          ∈ (daily_counts [juneCleanRow]).map TripCountRow.date)
      ∧ (innerJoin (weatherRows precip2025) (daily_counts [juneCleanRow])).length
          ≤ min (daily_counts [juneCleanRow]).length (weatherRows precip2025).length :=
  ⟨(weather_join_props precip2025 (weatherRows precip2025) [juneCleanRow]
      { date := 20240, precipitation_mm := 0, trip_count := 1 } rfl).1 (by decide),
    (weather_join_props precip2025 (weatherRows precip2025) [juneCleanRow]
      { date := 20240, precipitation_mm := 0, trip_count := 1 } rfl).2⟩

/-- Witness for C10 at the same concrete run. -/
theorem elasticity_dates_in_2025_witness :
    epochDay_2025_01_01
        ≤ ({ date := 20240, precipitation_mm := 0, trip_count := 1 : ElasticityRow}).date
      ∧ ({ date := 20240, precipitation_mm := 0, trip_count := 1 : ElasticityRow}).date
          ≤ epochDay_2025_12_31 :=
  elasticity_dates_in_2025 precip2025 (weatherRows precip2025) [juneCleanRow]
    { date := 20240, precipitation_mm := 0, trip_count := 1 } rfl (by decide)
